import Mathlib

/-!
# Verification of the iManage Deep Research MCP server

A shallow embedding, in Lean 4, of the behaviourally relevant parts of the
Python sources under `src/` (search_service.py, document_processor.py,
document_service.py, auth.py, config.py, oauth_endpoints.py, mcp_handlers.py).

Modelling conventions:
* Upstream HTTP calls and third-party libraries (httpx, PyPDF2, pdfplumber,
  python-docx, openpyxl, python-pptx, BeautifulSoup) are oracles: their
  outcome on the request/bytes at hand is passed in as an `Except` value
  (`.error` models a raised exception, `.ok` the returned data).
* Raised Python exceptions that escape a function are modelled by the
  function returning `.error`; `try/except` blocks become `match` on the
  oracle outcome.
* The insertion-ordered Python `dict` is modelled by an association list
  where assignment to an existing key replaces the value in place and
  assignment to a fresh key appends.
* `time.time()` is passed explicitly as an integer `now`.
* Core `String` is used, but Python string primitives (`lower`, `strip`,
  `in`, `endswith`, `split`) are re-implemented below at the `List Char`
  level so that all definitions evaluate by kernel reduction.
-/

/-! ## Python string primitives -/

/-- `p` occurs as a contiguous sublist of the second argument
(Python `p in s` for strings). -/
def isSub (p : List Char) : List Char → Bool
  | [] => p.isEmpty
  | c :: rest => p.isPrefixOf (c :: rest) || isSub p rest

/-- Python `pat in s` (substring containment). -/
def strContains (s pat : String) : Bool := isSub pat.data s.data

/-- Python `s.lower()` (ASCII-adequate model). -/
def lowerStr (s : String) : String := ⟨s.data.map Char.toLower⟩

/-- Drop whitespace from both ends of a character list. -/
def stripChars (l : List Char) : List Char :=
  ((l.dropWhile Char.isWhitespace).reverse.dropWhile Char.isWhitespace).reverse

/-- Python `s.strip()`. -/
def pyStrip (s : String) : String := ⟨stripChars s.data⟩

/-- Python `s.endswith(suf)`. -/
def pyEndsWith (s suf : String) : Bool := suf.data.isSuffixOf s.data

/-- Python `sep.join(parts)`. -/
def joinSep (sep : String) : List String → String
  | [] => ""
  | [x] => x
  | x :: y :: xs => x ++ sep ++ joinSep sep (y :: xs)

/-- String append is associative (used to exhibit substrings of error
messages). -/
theorem strAssoc (a b c : String) : (a ++ b) ++ c = a ++ (b ++ c) :=
  congrArg String.mk (List.append_assoc a.data b.data c.data)

/-! ## search_service.py -/

/-- `search_service.SearchResult` (src/search_service.py lines 13-18).
`metadata` is the pydantic `Dict[str, str]` as an ordered list of pairs. -/
structure SearchResult where
  id : String
  title : String
  text : String
  url : String
  metadata : List (String × String)
deriving DecidableEq, Repr

/-- The ids of an insertion-ordered result map. -/
def ids (m : List SearchResult) : List String := m.map (fun r => r.id)

/-- Python `all_results[result.id] = result` on the insertion-ordered dict
`all_results` keyed by document id: replace in place if the id is present,
append otherwise (src/search_service.py lines 324-325, 345-346). -/
def dictInsert (m : List SearchResult) (r : SearchResult) : List SearchResult :=
  if r.id ∈ ids m then m.map (fun x => if x.id = r.id then r else x)
  else m ++ [r]

/-- The guarded insertion
`if result.id not in all_results: all_results[result.id] = result`
(src/search_service.py lines 333-335). -/
def dictInsertIfAbsent (m : List SearchResult) (r : SearchResult) : List SearchResult :=
  if r.id ∈ ids m then m else m ++ [r]

/-- First `try` block of `perform_combined_search`
(src/search_service.py lines 322-328): insert every title result into the
empty `all_results` dict; a raised exception leaves the dict unchanged. -/
def mergeTitleStage (titleRes : Except String (List SearchResult)) :
    List SearchResult :=
  match titleRes with
  | .ok rs => rs.foldl dictInsert []
  | .error _ => []

/-- Second `try` block (src/search_service.py lines 331-338): insert each
keyword result only when its id is not yet present. -/
def mergeKeywordStage (keywordRes : Except String (List SearchResult))
    (m : List SearchResult) : List SearchResult :=
  match keywordRes with
  | .ok rs => rs.foldl dictInsertIfAbsent m
  | .error _ => m

/-- Fallback block (src/search_service.py lines 341-349): when no results
were collected, run the simple fallback search and insert its results. -/
def fallbackStage (fallbackRes : Except String (List SearchResult))
    (m : List SearchResult) : List SearchResult :=
  if m.isEmpty then
    match fallbackRes with
    | .ok rs => rs.foldl dictInsert m
    | .error _ => m
  else m

/-- `search_service.perform_combined_search` (src/search_service.py lines
315-355).  The three oracles are the outcomes of `search_documents_title`,
`search_documents_keyword` and the final `search_documents_simple` fallback
on the query at hand; `.error` models those calls raising.  Title results
are inserted first, keyword results only for unseen ids, the fallback runs
only when the union is empty, and the value list is capped at 20
(`list(all_results.values())[:20]`). -/
def perform_combined_search
    (titleRes keywordRes fallbackRes : Except String (List SearchResult)) :
    List SearchResult :=
  (fallbackStage fallbackRes
    (mergeKeywordStage keywordRes (mergeTitleStage titleRes))).take 20

/-! ### Ordered-dict lemmas -/

lemma ids_dictInsert_mem {m : List SearchResult} {r : SearchResult}
    (h : r.id ∈ ids m) : ids (dictInsert m r) = ids m := by
  unfold dictInsert
  rw [if_pos h]
  unfold ids
  rw [List.map_map]
  apply List.map_congr_left
  intro x _
  by_cases hx : x.id = r.id
  · simp [hx]
  · simp [hx]

lemma ids_dictInsert_new {m : List SearchResult} {r : SearchResult}
    (h : r.id ∉ ids m) : ids (dictInsert m r) = ids m ++ [r.id] := by
  unfold dictInsert
  rw [if_neg h]
  unfold ids
  rw [List.map_append]
  rfl

lemma ids_dictInsertIfAbsent (m : List SearchResult) (r : SearchResult) :
    ids (dictInsertIfAbsent m r) = ids m ∨
      (r.id ∉ ids m ∧ ids (dictInsertIfAbsent m r) = ids m ++ [r.id]) := by
  unfold dictInsertIfAbsent
  by_cases h : r.id ∈ ids m
  · left; rw [if_pos h]
  · right
    refine ⟨h, ?_⟩
    rw [if_neg h]
    unfold ids
    rw [List.map_append]
    rfl

lemma nodup_ids_dictInsert {m : List SearchResult} {r : SearchResult}
    (h : (ids m).Nodup) : (ids (dictInsert m r)).Nodup := by
  by_cases hm : r.id ∈ ids m
  · rw [ids_dictInsert_mem hm]; exact h
  · rw [ids_dictInsert_new hm]
    rw [List.nodup_append]
    exact ⟨h, List.nodup_singleton _, by
      intro a ha hb
      rw [List.mem_singleton] at hb
      exact hm (hb ▸ ha)⟩

lemma nodup_ids_dictInsertIfAbsent {m : List SearchResult} {r : SearchResult}
    (h : (ids m).Nodup) : (ids (dictInsertIfAbsent m r)).Nodup := by
  rcases ids_dictInsertIfAbsent m r with heq | ⟨hn, heq⟩
  · rw [heq]; exact h
  · rw [heq]
    rw [List.nodup_append]
    exact ⟨h, List.nodup_singleton _, by
      intro a ha hb
      rw [List.mem_singleton] at hb
      exact hn (hb ▸ ha)⟩

lemma nodup_ids_foldl_dictInsert (rs : List SearchResult) :
    ∀ m : List SearchResult, (ids m).Nodup → (ids (rs.foldl dictInsert m)).Nodup := by
  induction rs with
  | nil => intro m h; exact h
  | cons r rest ih =>
    intro m h
    exact ih (dictInsert m r) (nodup_ids_dictInsert h)

lemma nodup_ids_foldl_dictInsertIfAbsent (rs : List SearchResult) :
    ∀ m : List SearchResult, (ids m).Nodup →
      (ids (rs.foldl dictInsertIfAbsent m)).Nodup := by
  induction rs with
  | nil => intro m h; exact h
  | cons r rest ih =>
    intro m h
    exact ih (dictInsertIfAbsent m r) (nodup_ids_dictInsertIfAbsent h)

lemma nodup_ids_mergeTitleStage (t : Except String (List SearchResult)) :
    (ids (mergeTitleStage t)).Nodup := by
  cases t with
  | ok rs => exact nodup_ids_foldl_dictInsert rs [] List.nodup_nil
  | error e => exact List.nodup_nil

lemma nodup_ids_mergeKeywordStage (k : Except String (List SearchResult))
    {m : List SearchResult} (hm : (ids m).Nodup) :
    (ids (mergeKeywordStage k m)).Nodup := by
  cases k with
  | ok rs => exact nodup_ids_foldl_dictInsertIfAbsent rs m hm
  | error e => exact hm

lemma nodup_ids_fallbackStage (f : Except String (List SearchResult))
    {m : List SearchResult} (hm : (ids m).Nodup) :
    (ids (fallbackStage f m)).Nodup := by
  unfold fallbackStage
  by_cases he : m.isEmpty
  · rw [if_pos he]
    cases f with
    | ok rs => exact nodup_ids_foldl_dictInsert rs m hm
    | error e => exact hm
  · rw [if_neg he]; exact hm

lemma ids_take (m : List SearchResult) (n : Nat) :
    ids (m.take n) = (ids m).take n := (List.map_take _ _ _).symm ▸ rfl

/-- C1: for every query and every pair (indeed triple) of upstream
responses — modelled by arbitrary oracle outcomes for the title, keyword
and fallback searches — `perform_combined_search` returns at most 20
results and the returned ids are pairwise distinct. -/
theorem C1_search_capped_and_dedup
    (titleRes keywordRes fallbackRes : Except String (List SearchResult)) :
    (perform_combined_search titleRes keywordRes fallbackRes).length ≤ 20 ∧
      (ids (perform_combined_search titleRes keywordRes fallbackRes)).Nodup := by
  unfold perform_combined_search
  refine ⟨List.length_take_le 20 _, ?_⟩
  have hn : (ids (fallbackStage fallbackRes
      (mergeKeywordStage keywordRes (mergeTitleStage titleRes)))).Nodup :=
    nodup_ids_fallbackStage _
      (nodup_ids_mergeKeywordStage _ (nodup_ids_mergeTitleStage _))
  have hsub : List.Sublist
      (ids ((fallbackStage fallbackRes
        (mergeKeywordStage keywordRes (mergeTitleStage titleRes))).take 20))
      (ids (fallbackStage fallbackRes
        (mergeKeywordStage keywordRes (mergeTitleStage titleRes)))) :=
    (List.take_sublist _ _).map _
  exact hn.sublist hsub

/-! ### Merge-order lemmas for C2 -/

lemma mem_ids_dictInsert {m : List SearchResult} {s : String}
    (h : s ∈ ids m) (r : SearchResult) : s ∈ ids (dictInsert m r) := by
  by_cases hr : r.id ∈ ids m
  · rw [ids_dictInsert_mem hr]; exact h
  · rw [ids_dictInsert_new hr]; exact List.mem_append_left _ h

lemma self_mem_ids_dictInsert (m : List SearchResult) (r : SearchResult) :
    r.id ∈ ids (dictInsert m r) := by
  by_cases hr : r.id ∈ ids m
  · rw [ids_dictInsert_mem hr]; exact hr
  · rw [ids_dictInsert_new hr]
    exact List.mem_append_right _ (List.mem_singleton_self _)

lemma mem_ids_foldl_dictInsert_of_mem (rs : List SearchResult) :
    ∀ (m : List SearchResult) {s : String}, s ∈ ids m →
      s ∈ ids (rs.foldl dictInsert m) := by
  induction rs with
  | nil => intro m s h; exact h
  | cons r rest ih =>
    intro m s h
    exact ih (dictInsert m r) (mem_ids_dictInsert h r)

lemma mem_ids_foldl_dictInsert (rs : List SearchResult) :
    ∀ (m : List SearchResult) {t : SearchResult}, t ∈ rs →
      t.id ∈ ids (rs.foldl dictInsert m) := by
  induction rs with
  | nil => intro m t h; exact absurd h (List.not_mem_nil t)
  | cons r rest ih =>
    intro m t h
    rcases List.mem_cons.mp h with rfl | h
    · exact mem_ids_foldl_dictInsert_of_mem rest _
        (self_mem_ids_dictInsert m t)
    · exact ih _ h

lemma mem_of_mem_dictInsert {m : List SearchResult} {r e : SearchResult}
    (h : e ∈ dictInsert m r) : e ∈ m ∨ e = r := by
  unfold dictInsert at h
  by_cases hr : r.id ∈ ids m
  · rw [if_pos hr] at h
    rcases List.mem_map.mp h with ⟨x, hx, hxe⟩
    by_cases hxid : x.id = r.id
    · right; rw [if_pos hxid] at hxe; exact hxe.symm
    · left; rw [if_neg hxid] at hxe; exact hxe ▸ hx
  · rw [if_neg hr] at h
    rcases List.mem_append.mp h with h | h
    · left; exact h
    · right; exact List.mem_singleton.mp h

lemma mem_of_mem_foldl_dictInsert (rs : List SearchResult) :
    ∀ (m : List SearchResult) {e : SearchResult},
      e ∈ rs.foldl dictInsert m → e ∈ m ∨ e ∈ rs := by
  induction rs with
  | nil => intro m e h; left; exact h
  | cons r rest ih =>
    intro m e h
    rcases ih (dictInsert m r) h with h | h
    · rcases mem_of_mem_dictInsert h with h | rfl
      · left; exact h
      · right; exact List.mem_cons_self _ _
    · right; exact List.mem_cons_of_mem _ h

/-- The keyword stage only appends: the accumulated dict stays a prefix and
every appended entry comes from the keyword results with an id unseen in
the accumulated dict. -/
lemma foldl_dictInsertIfAbsent_append (rs : List SearchResult) :
    ∀ m : List SearchResult, ∃ K : List SearchResult,
      rs.foldl dictInsertIfAbsent m = m ++ K ∧
        ∀ e ∈ K, e ∈ rs ∧ e.id ∉ ids m := by
  induction rs with
  | nil =>
    intro m
    exact ⟨[], by simp, by simp⟩
  | cons r rest ih =>
    intro m
    by_cases hr : r.id ∈ ids m
    · have hstep : dictInsertIfAbsent m r = m := by
        unfold dictInsertIfAbsent; rw [if_pos hr]
      rcases ih m with ⟨K, hK, hKmem⟩
      refine ⟨K, ?_, ?_⟩
      · rw [List.foldl_cons, hstep]; exact hK
      · intro e he
        exact ⟨List.mem_cons_of_mem _ (hKmem e he).1, (hKmem e he).2⟩
    · have hstep : dictInsertIfAbsent m r = m ++ [r] := by
        unfold dictInsertIfAbsent; rw [if_neg hr]
      rcases ih (m ++ [r]) with ⟨K, hK, hKmem⟩
      refine ⟨r :: K, ?_, ?_⟩
      · rw [List.foldl_cons, hstep, hK, List.append_assoc]
        rfl
      · intro e he
        rcases List.mem_cons.mp he with rfl | he
        · exact ⟨List.mem_cons_self _ _, hr⟩
        · refine ⟨List.mem_cons_of_mem _ (hKmem e he).1, ?_⟩
          intro hmem
          exact (hKmem e he).2 (by
            unfold ids at hmem ⊢
            rw [List.map_append]
            exact List.mem_append_left _ hmem)

/-- In a dict with pairwise distinct ids, an id that is present selects
exactly one entry. -/
lemma filter_id_length_one (m : List SearchResult) (s : String)
    (hnd : (ids m).Nodup) (hs : s ∈ ids m) :
    (m.filter (fun e => decide (e.id = s))).length = 1 := by
  induction m with
  | nil => exact absurd hs (List.not_mem_nil s)
  | cons x rest ih =>
    have hnd' := hnd
    rw [ids, List.map_cons, List.nodup_cons] at hnd'
    by_cases hxs : x.id = s
    · rw [List.filter_cons_of_pos (by simpa using hxs)]
      have hrest : rest.filter (fun e => decide (e.id = s)) = [] := by
        rw [List.filter_eq_nil_iff]
        intro e he
        simp only [decide_eq_true_eq]
        intro hes
        exact hnd'.1 (hxs ▸ hes ▸ List.mem_map_of_mem (fun r => r.id) he)
      rw [hrest]
      rfl
    · rw [List.filter_cons_of_neg (by simpa using hxs)]
      have hs' : s ∈ ids rest := by
        rcases List.mem_cons.mp (by rw [ids, List.map_cons] at hs; exact hs)
          with h | h
        · exact absurd h.symm hxs
        · exact h
      exact ih hnd'.2 hs'

/-- C2 counterexample data: 21 title results with pairwise distinct ids. -/
def csTitleResults : List SearchResult :=
  ["a", "b", "c", "d", "e", "f", "g", "h", "i", "j", "k", "l", "m",
   "n", "o", "p", "q", "r", "s", "t", "u"].map
    (fun s => { id := s, title := s, text := "", url := "",
                metadata := [("search_type", "title")] })

/-- C2 counterexample data: one keyword result sharing the id of the last
(21st) title result. -/
def csKeywordResults : List SearchResult :=
  [{ id := "u", title := "kw", text := "", url := "",
     metadata := [("search_type", "keyword")] }]

/-- C2 is false as stated: with 21 title results of distinct ids and a
keyword result sharing the 21st id, the shared id is dropped by the cap of
20, so the combined output contains no entry (not exactly one) for it. -/
theorem C2_counterexample :
    (∃ t ∈ csTitleResults, ∃ k ∈ csKeywordResults, t.id = k.id) ∧
      ((perform_combined_search (.ok csTitleResults) (.ok csKeywordResults)
          (.error "")).filter (fun e => decide (e.id = "u"))).length = 0 := by
  decide

/-- In a dict with pairwise distinct ids, any id selects at most one
entry. -/
lemma filter_id_length_le_one (m : List SearchResult) (s : String)
    (hnd : (ids m).Nodup) :
    (m.filter (fun e => decide (e.id = s))).length ≤ 1 := by
  induction m with
  | nil => simp
  | cons x rest ih =>
    have hnd' := hnd
    rw [ids, List.map_cons, List.nodup_cons] at hnd'
    by_cases hxs : x.id = s
    · rw [List.filter_cons_of_pos (by simpa using hxs)]
      have hrest : rest.filter (fun e => decide (e.id = s)) = [] := by
        rw [List.filter_eq_nil_iff]
        intro e he
        simp only [decide_eq_true_eq]
        intro hes
        exact hnd'.1 (hxs ▸ hes ▸ List.mem_map_of_mem (fun r => r.id) he)
      rw [hrest]
      simp
    · rw [List.filter_cons_of_neg (by simpa using hxs)]
      exact ih hnd'.2

/-- C2 (amended): whenever a title result and a keyword result share an id,
the combined output is unconditionally a prefix of the deduplicated title
results followed by keyword results only, it contains at most one entry
carrying the shared id, and any entry carrying that id is a title-search
result (its metadata retained); when additionally the deduplicated title
results fit within the cap of 20 (so the shared entry survives the cap),
the output contains exactly one entry carrying the shared id. -/
theorem C2_amended_title_priority_and_order
    (ts ks : List SearchResult) (fb : Except String (List SearchResult))
    (t k : SearchResult) (ht : t ∈ ts) (hk : k ∈ ks) (hid : t.id = k.id) :
    (∃ K : List SearchResult,
        perform_combined_search (.ok ts) (.ok ks) fb =
          (ts.foldl dictInsert []).take 20 ++ K ∧ ∀ e ∈ K, e ∈ ks) ∧
      ((perform_combined_search (.ok ts) (.ok ks) fb).filter
          (fun e => decide (e.id = k.id))).length ≤ 1 ∧
      (∀ e ∈ perform_combined_search (.ok ts) (.ok ks) fb,
          e.id = k.id → e ∈ ts) ∧
      ((ts.foldl dictInsert []).length ≤ 20 →
        ((perform_combined_search (.ok ts) (.ok ks) fb).filter
            (fun e => decide (e.id = k.id))).length = 1) := by
  set T := ts.foldl dictInsert [] with hT
  rcases foldl_dictInsertIfAbsent_append ks T with ⟨K, hK, hKmem⟩
  have hTid : t.id ∈ ids T := mem_ids_foldl_dictInsert ts [] ht
  have hTnodup : (ids T).Nodup := nodup_ids_foldl_dictInsert ts [] List.nodup_nil
  have hTne : T ≠ [] := by
    intro h
    rw [h] at hTid
    exact List.not_mem_nil _ hTid
  have hmerge : mergeKeywordStage (.ok ks) (mergeTitleStage (.ok ts)) = T ++ K := by
    unfold mergeKeywordStage mergeTitleStage
    exact hK
  have hne : (T ++ K).isEmpty = false := by
    cases hc : T ++ K with
    | nil => exact absurd (List.append_eq_nil.mp hc).1 hTne
    | cons a l => rfl
  have hfb : fallbackStage fb (T ++ K) = T ++ K := by
    unfold fallbackStage
    rw [hne]
    simp
  have hout : perform_combined_search (.ok ts) (.ok ks) fb =
      T.take 20 ++ K.take (20 - T.length) := by
    unfold perform_combined_search
    rw [hmerge, hfb, List.take_append_eq_append_take]
  have houtNodup : (ids (perform_combined_search (.ok ts) (.ok ks) fb)).Nodup := by
    unfold perform_combined_search
    exact (nodup_ids_fallbackStage _ (nodup_ids_mergeKeywordStage _
      (nodup_ids_mergeTitleStage _))).sublist ((List.take_sublist _ _).map _)
  have hKid : ∀ e ∈ K.take (20 - T.length), e.id ≠ k.id := by
    intro e he
    have heK : e ∈ K := List.mem_of_mem_take he
    intro heq
    exact (hKmem e heK).2 (heq ▸ hid ▸ hTid)
  refine ⟨⟨K.take (20 - T.length), hout, ?_⟩, ?_, ?_, ?_⟩
  · intro e he
    exact (hKmem e (List.mem_of_mem_take he)).1
  · exact filter_id_length_le_one _ _ houtNodup
  · intro e he heid
    rw [hout] at he
    rcases List.mem_append.mp he with he | he
    · rcases mem_of_mem_foldl_dictInsert ts [] (List.mem_of_mem_take he) with h | h
      · exact absurd h (List.not_mem_nil e)
      · exact h
    · exact absurd heid (hKid e he)
  · intro hcap
    rw [hout, List.take_of_length_le hcap, List.filter_append]
    have h2 : (K.take (20 - T.length)).filter (fun e => decide (e.id = k.id)) = [] := by
      rw [List.filter_eq_nil_iff]
      intro e he
      simp only [decide_eq_true_eq]
      exact hKid e he
    rw [h2, List.append_nil]
    exact hid ▸ filter_id_length_one T t.id hTnodup hTid

/-- C2 witness data: one title result with id `"x"`. -/
def c2T : SearchResult :=
  { id := "x", title := "T", text := "", url := "", metadata := [] }

/-- C2 witness data: one keyword result sharing id `"x"`. -/
def c2K : SearchResult :=
  { id := "x", title := "K", text := "", url := "", metadata := [] }

/-- C2 witness: the amended theorem at one title result and one keyword
result sharing id `"x"`, with the cap hypothesis of the final conjunct
also discharged concretely. -/
theorem C2_witness :
    ((∃ K : List SearchResult,
        perform_combined_search (.ok [c2T]) (.ok [c2K]) (.error "") =
          ([c2T].foldl dictInsert []).take 20 ++ K ∧ ∀ e ∈ K, e ∈ [c2K]) ∧
      ((perform_combined_search (.ok [c2T]) (.ok [c2K]) (.error "")).filter
          (fun e => decide (e.id = c2K.id))).length ≤ 1 ∧
      (∀ e ∈ perform_combined_search (.ok [c2T]) (.ok [c2K]) (.error ""),
          e.id = c2K.id → e ∈ [c2T]) ∧
      (([c2T].foldl dictInsert []).length ≤ 20 →
        ((perform_combined_search (.ok [c2T]) (.ok [c2K]) (.error "")).filter
            (fun e => decide (e.id = c2K.id))).length = 1)) ∧
      ((perform_combined_search (.ok [c2T]) (.ok [c2K]) (.error "")).filter
          (fun e => decide (e.id = c2K.id))).length = 1 :=
  ⟨C2_amended_title_priority_and_order [c2T] [c2K] (.error "") c2T c2K
      (List.mem_singleton_self _) (List.mem_singleton_self _) rfl,
   (C2_amended_title_priority_and_order [c2T] [c2K] (.error "") c2T c2K
      (List.mem_singleton_self _) (List.mem_singleton_self _) rfl).2.2.2
      (by decide)⟩

/-! ## document_processor.py

Each third-party parsing library is an oracle describing its behaviour on
the bytes at hand.  A page/sheet/slide oracle of `.error` models that
library call raising; the enclosing `try/except` of each extractor turns
any such failure into a descriptive string, never an exception. -/

/-- Build the `text_parts` list of `extract_text_from_pdf`
(src/document_processor.py lines 29-38 and 46-54): pages whose
`extract_text()` raises are skipped, pages with only-whitespace text are
skipped, other pages contribute a `[Page n]` block.  `pdfplumber` pages
returning `None` are modelled as `.ok ""` (also skipped). -/
def pdfParts (pages : List (Except String String)) : List String :=
  pages.enum.filterMap (fun p =>
    match p.2 with
    | .ok txt => if pyStrip txt ≠ "" then
        some ("[Page " ++ toString (p.1 + 1) ++ "]\n" ++ txt)
      else none
    | .error _ => none)

/-- `document_processor.extract_text_from_pdf`
(src/document_processor.py lines 22-60).  `pyPdf` is the PyPDF2 reader
oracle, `plumber` the pdfplumber oracle; `.error` models the reader/open
call raising, which the outer `except` converts into
`"PDF processing error: ..."`. -/
def extract_text_from_pdf
    (pyPdf plumber : Except String (List (Except String String))) : String :=
  match pyPdf with
  | .error e => "PDF processing error: " ++ e
  | .ok pages =>
    let parts := pdfParts pages
    if parts ≠ [] then joinSep "\n\n" parts
    else
      match plumber with
      | .error e => "PDF processing error: " ++ e
      | .ok pages2 =>
        let parts2 := pdfParts pages2
        if parts2 = [] then "PDF content could not be extracted"
        else joinSep "\n\n" parts2

/-- A parsed Word document: paragraph texts and tables (rows of cell
texts), as produced by python-docx. -/
structure DocxFile where
  paragraphs : List String
  tables : List (List (List String))
deriving Repr

/-- `document_processor.extract_text_from_docx`
(src/document_processor.py lines 62-93). -/
def extract_text_from_docx (o : Except String DocxFile) : String :=
  match o with
  | .error e => "Word document processing error: " ++ e
  | .ok d =>
    let paraParts := d.paragraphs.filter (fun p => decide (pyStrip p ≠ ""))
    let tableParts := d.tables.enum.filterMap (fun t =>
      let rows := t.2.filterMap (fun row =>
        let cells := (row.filter (fun c => decide (pyStrip c ≠ ""))).map pyStrip
        let rowText := joinSep " | " cells
        if rowText ≠ "" then some rowText else none)
      if rows ≠ [] then
        some ("\n[Table " ++ toString (t.1 + 1) ++ "]\n" ++ joinSep "\n" rows)
      else none)
    let extracted := joinSep "\n" (paraParts ++ tableParts)
    if pyStrip extracted ≠ "" then extracted
    else "No readable text found in Word document"

/-- A loaded Excel workbook: sheet names with their rows; a cell is `none`
for an empty (`None`) cell and otherwise its `str()` rendering, matching
`str(cell) if cell is not None else ""` on values read with
`data_only=True`. -/
structure XlsxWorkbook where
  sheets : List (String × List (List (Option String)))
deriving Repr

/-- `" | ".join(row_data)` for one row (src/document_processor.py line 111). -/
def rowJoin (row : List (Option String)) : String :=
  joinSep " | " (row.map (fun c => c.getD ""))

/-- `any(cell.strip() for cell in row_data)` (src/document_processor.py
line 110): the row has some non-blank cell. -/
def rowNonBlank (row : List (Option String)) : Bool :=
  row.any (fun c => decide (pyStrip (c.getD "") ≠ ""))

/-- The literal truncation marker of src/document_processor.py line 115. -/
def truncMarker : String := "... (truncated, showing first 100 rows)"

/-- The `for row_num, row in enumerate(sheet.iter_rows(...), 1)` loop of
`extract_text_from_excel` (src/document_processor.py lines 108-116):
append the joined row if it has a non-blank cell, then — after the append —
break with the truncation marker as soon as `row_num > 100`. -/
def sheetRowsLoop : List (List (Option String)) → Nat → List String → List String
  | [], _, acc => acc
  | r :: rest, n, acc =>
    let acc2 := if rowNonBlank r then acc ++ [rowJoin r] else acc
    if n > 100 then acc2 ++ [truncMarker]
    else sheetRowsLoop rest (n + 1) acc2

/-- `document_processor.extract_text_from_excel`
(src/document_processor.py lines 95-127). -/
def extract_text_from_excel (o : Except String XlsxWorkbook) : String :=
  match o with
  | .error e => "Excel processing error: " ++ e
  | .ok wb =>
    let parts := wb.sheets.filterMap (fun s =>
      let sheetData := sheetRowsLoop s.2 1 []
      if sheetData ≠ [] then
        some ("[Sheet: " ++ s.1 ++ "]\n" ++ joinSep "\n" sheetData)
      else none)
    let extracted := joinSep "\n\n" parts
    if pyStrip extracted ≠ "" then extracted
    else "No readable data found in Excel file"

/-- A parsed PowerPoint file: slides as lists of shapes, where a shape is
`none` when it has no `text` attribute and otherwise carries its text. -/
structure PptxFile where
  slides : List (List (Option String))
deriving Repr

/-- `document_processor.extract_text_from_pptx`
(src/document_processor.py lines 129-154). -/
def extract_text_from_pptx (o : Except String PptxFile) : String :=
  match o with
  | .error e => "PowerPoint processing error: " ++ e
  | .ok p =>
    let parts := p.slides.enum.filterMap (fun s =>
      let slideText := s.2.filterMap (fun sh =>
        match sh with
        | some t => if pyStrip t ≠ "" then some t else none
        | none => none)
      if slideText ≠ [] then
        some ("[Slide " ++ toString (s.1 + 1) ++ "]\n" ++ joinSep "\n" slideText)
      else none)
    let extracted := joinSep "\n\n" parts
    if pyStrip extracted ≠ "" then extracted
    else "No readable text found in PowerPoint"

/-- Split a character list at newline characters (model of
`str.splitlines`, adequate for `\n`-separated text). -/
def splitNL : List Char → List Char → List (List Char)
  | [], cur => [cur.reverse]
  | c :: rest, cur =>
    if c = '\n' then cur.reverse :: splitNL rest []
    else splitNL rest (c :: cur)

/-- Split a character list on each occurrence of two consecutive spaces
(Python `line.split("  ")`). -/
def splitTS : List Char → List Char → List (List Char)
  | ' ' :: ' ' :: rest, cur => cur.reverse :: splitTS rest []
  | c :: rest, cur => splitTS rest (c :: cur)
  | [], cur => [cur.reverse]

/-- `document_processor.extract_text_from_html`
(src/document_processor.py lines 156-180).  The oracle carries
`soup.get_text()` after script/style removal; `.error` models
BeautifulSoup raising. -/
def extract_text_from_html (o : Except String String) : String :=
  match o with
  | .error e => "HTML processing error: " ++ e
  | .ok raw =>
    let lines := (splitNL raw.data []).map stripChars
    let chunks := (lines.map (fun ln => (splitTS ln []).map stripChars)).flatten
    let text := joinSep "\n"
      ((chunks.filter (fun c => decide (c ≠ []))).map (fun c => (⟨c⟩ : String)))
    if pyStrip text ≠ "" then text else "No readable text found in HTML"

/-- The library oracles available to `process_document_content`: the
outcome of each third-party parser on the byte string at hand. -/
structure DocLibs where
  pyPdf : Except String (List (Except String String))
  plumber : Except String (List (Except String String))
  docx : Except String DocxFile
  excel : Except String XlsxWorkbook
  pptx : Except String PptxFile
  htmlText : Except String String
deriving Repr

/-- `document_processor.process_document_content`
(src/document_processor.py lines 182-217): dispatch on lower-cased
content-type / filename and delegate to the per-format extractor.
`content` is the raw byte string (only its length is observable here) and
`decoded` its `content.decode("utf-8", errors="ignore")` rendering, a
total operation in Python. -/
def process_document_content (libs : DocLibs) (content : List Nat)
    (decoded : String) (content_type filename : String) : String :=
  let ct := lowerStr content_type
  let fn := lowerStr filename
  if strContains ct "pdf" || pyEndsWith fn ".pdf" then
    extract_text_from_pdf libs.pyPdf libs.plumber
  else if strContains ct "msword" || strContains ct "officedocument.wordprocessingml"
      || pyEndsWith fn ".doc" || pyEndsWith fn ".docx" then
    extract_text_from_docx libs.docx
  else if strContains ct "excel" || strContains ct "spreadsheetml"
      || pyEndsWith fn ".xls" || pyEndsWith fn ".xlsx" then
    extract_text_from_excel libs.excel
  else if strContains ct "powerpoint" || strContains ct "presentationml"
      || pyEndsWith fn ".ppt" || pyEndsWith fn ".pptx" then
    extract_text_from_pptx libs.pptx
  else if strContains ct "html" || pyEndsWith fn ".html" || pyEndsWith fn ".htm" then
    extract_text_from_html libs.htmlText
  else if strContains ct "text" || strContains ct "json" || strContains ct "xml" then
    decoded
  else
    "Unsupported document format: " ++ content_type ++ ". File size: "
      ++ toString content.length ++ " bytes. Unable to extract text content."

/-- C3: processing a document never raises — every branch of the embedding
is total by construction, mirroring the per-format `try/except` blocks —
and in particular, for every byte string whose PDF parse fails (garbage
bytes make `PyPDF2.PdfReader` raise, modelled by a `.error` reader oracle)
and every content-type/filename routed to the PDF branch, the returned
string contains the word `"error"`. -/
theorem C3_extractor_total_pdf_garbage_error
    (libs : DocLibs) (content : List Nat) (decoded : String)
    (content_type filename : String) (e : String)
    (hroute : (strContains (lowerStr content_type) "pdf"
        || pyEndsWith (lowerStr filename) ".pdf") = true)
    (hgarbage : libs.pyPdf = .error e) :
    ∃ pre post,
      process_document_content libs content decoded content_type filename =
        pre ++ "error" ++ post := by
  refine ⟨"PDF processing ", ": " ++ e, ?_⟩
  unfold process_document_content
  dsimp only
  rw [hroute, if_pos rfl]
  unfold extract_text_from_pdf
  rw [hgarbage]
  rw [strAssoc]
  rfl

/-- Concrete library behaviour on garbage bytes: every parser raises. -/
def garbageLibs : DocLibs :=
  { pyPdf := .error "EOF marker not found"
  , plumber := .error "No /Root object"
  , docx := .error "File is not a zip file"
  , excel := .error "File is not a zip file"
  , pptx := .error "File is not a zip file"
  , htmlText := .error "parser error" }

/-- C3 witness: the theorem applied to garbage bytes presented as
`application/pdf`. -/
theorem C3_witness :
    ((strContains (lowerStr "application/pdf") "pdf"
        || pyEndsWith (lowerStr "blob.bin") ".pdf") = true) ∧
      (∃ pre post,
        process_document_content garbageLibs [37, 80] "" "application/pdf"
          "blob.bin" = pre ++ "error" ++ post) :=
  ⟨by decide,
    C3_extractor_total_pdf_garbage_error garbageLibs [37, 80] "" "application/pdf"
      "blob.bin" "EOF marker not found" (by decide) rfl⟩

/-! ### C9: the Excel 100-row cap -/

/-- Closed form of `sheetRowsLoop`: starting at row counter `n ≤ 101`, the
loop keeps the non-blank rows among the first `102 - n` remaining rows and
appends the truncation marker exactly when at least `102 - n` rows
remain. -/
lemma sheetRowsLoop_eq (l : List (List (Option String))) :
    ∀ (n : Nat) (acc : List String), n ≤ 101 →
      sheetRowsLoop l n acc =
        acc ++ ((l.take (102 - n)).filter rowNonBlank).map rowJoin ++
          (if 102 - n ≤ l.length then [truncMarker] else []) := by
  induction l with
  | nil =>
    intro n acc hn
    have h1 : ¬ (102 - n ≤ ([] : List (List (Option String))).length) := by
      simp only [List.length_nil]
      omega
    rw [if_neg h1]
    simp [sheetRowsLoop]
  | cons r rest ih =>
    intro n acc hn
    simp only [sheetRowsLoop]
    by_cases h100 : n > 100
    · have hn101 : n = 101 := by omega
      subst hn101
      rw [if_pos h100]
      have htake : (102 - 101 : Nat) = 1 := rfl
      rw [htake]
      have hlen : 1 ≤ (r :: rest).length := by
        simp only [List.length_cons]
        omega
      rw [if_pos hlen]
      have h1 : (r :: rest).take 1 = [r] := rfl
      rw [h1, List.filter_cons]
      by_cases hb : rowNonBlank r
      · rw [if_pos hb, if_pos hb]
        simp [List.append_assoc]
      · rw [if_neg hb, if_neg hb]
        simp
    · rw [if_neg h100]
      rw [ih (n + 1) (if rowNonBlank r then acc ++ [rowJoin r] else acc) (by omega)]
      have h2 : 102 - n = (101 - n) + 1 := by omega
      have h3 : 102 - (n + 1) = 101 - n := by omega
      rw [h2, h3, List.take_succ_cons, List.filter_cons]
      by_cases hc : 101 - n ≤ rest.length
      · rw [if_pos hc,
          if_pos (by simp only [List.length_cons]; omega : (101 - n) + 1 ≤ (r :: rest).length)]
        by_cases hb : rowNonBlank r
        · rw [if_pos hb, if_pos hb]
          simp [List.append_assoc]
        · rw [if_neg hb, if_neg hb]
      · rw [if_neg hc,
          if_neg (by simp only [List.length_cons]; omega : ¬ ((101 - n) + 1 ≤ (r :: rest).length))]
        by_cases hb : rowNonBlank r
        · rw [if_pos hb, if_pos hb]
          simp [List.append_assoc]
        · rw [if_neg hb, if_neg hb]

/-- C9 (amended): `extract_text_from_excel` iterates sheets and skips fully
blank rows, but the per-sheet cap is the first 101 physical rows — row 101
is still appended before the `row_num > 100` check fires — so up to 101
data rows can appear, and the truncation marker is appended exactly when
the sheet has more than 100 rows. -/
theorem C9_amended_excel_caps_at_101 (wb : XlsxWorkbook) :
    extract_text_from_excel (.ok wb) =
      (let parts := wb.sheets.filterMap (fun s =>
        let sheetData :=
          ((s.2.take 101).filter rowNonBlank).map rowJoin ++
            (if 101 ≤ s.2.length then [truncMarker] else [])
        if sheetData ≠ [] then
          some ("[Sheet: " ++ s.1 ++ "]\n" ++ joinSep "\n" sheetData)
        else none)
      let extracted := joinSep "\n\n" parts
      if pyStrip extracted ≠ "" then extracted
      else "No readable data found in Excel file") := by
  have hloop : ∀ rows : List (List (Option String)), sheetRowsLoop rows 1 [] =
      ((rows.take 101).filter rowNonBlank).map rowJoin ++
        (if 101 ≤ rows.length then [truncMarker] else []) := by
    intro rows
    have h := sheetRowsLoop_eq rows 1 [] (by omega)
    have h102 : (102 - 1 : Nat) = 101 := rfl
    rw [h102] at h
    simpa using h
  unfold extract_text_from_excel
  simp only [hloop]

set_option maxRecDepth 8000 in
/-- C9 is false as stated: a sheet of 101 non-blank rows yields 101 data
rows in `sheet_data` (plus the marker), exceeding the claimed cap of 100,
because src/document_processor.py appends row 101 before checking
`row_num > 100`. -/
theorem C9_counterexample :
    ¬ (((sheetRowsLoop (List.replicate 101 [some "x"]) 1 []).filter
        (fun s => decide (s ≠ truncMarker))).length ≤ 100) := by
  decide

/-! ## document_service.py -/

/-- Everything after the first occurrence of `sep` (first step of Python
`s.split(sep)[1]`), or `none` when `sep` does not occur. -/
def afterFirst (sep : List Char) : List Char → Option (List Char)
  | [] => if sep.isEmpty then some [] else none
  | c :: rest =>
    if sep.isPrefixOf (c :: rest) then some ((c :: rest).drop sep.length)
    else afterFirst sep rest

/-- The characters up to (excluding) the next occurrence of `sep` (second
step of Python `s.split(sep)[1]`). -/
def upToFirst (sep : List Char) : List Char → List Char
  | [] => []
  | c :: rest =>
    if sep.isPrefixOf (c :: rest) then []
    else c :: upToFirst sep rest

/-- Python `s.split(sep)[1]` for a `sep` that occurs in `s`. -/
def splitSecond (sep : List Char) (l : List Char) : Option (List Char) :=
  match afterFirst sep l with
  | none => none
  | some rest => some (upToFirst sep rest)

/-- Python `s.strip(chr(34))`: remove double-quote characters from both
ends (src/document_service.py line 53). -/
def stripQuotes (s : String) : String :=
  ⟨((s.data.dropWhile (fun c => c = '"')).reverse.dropWhile
      (fun c => c = '"')).reverse⟩

/-- Environment-derived configuration (config.py `URL_PREFIX`,
`CUSTOMER_ID`, `LIBRARY_ID`).  Their values never influence the claims
below; they are modelled as the `os.getenv` defaults (empty strings). -/
def cfgUrlBase : String := ""

/-- config.py `CUSTOMER_ID` (see `cfgUrlBase`). -/
def cfgCustomer : String := ""

/-- config.py `LIBRARY_ID` (see `cfgUrlBase`). -/
def cfgLibrary : String := ""

/-- The per-document citation URL of src/document_service.py lines 18 and
121 (the same string is used for the metadata GET and the citation). -/
def docUrl (doc_id : String) : String :=
  cfgUrlBase ++ "/work/web/api/v2/customers/" ++ cfgCustomer ++ "/libraries/"
    ++ cfgLibrary ++ "/documents/" ++ doc_id

/-- The `/download` sub-resource URL of src/document_service.py line 36. -/
def downloadUrl (doc_id : String) : String := docUrl doc_id ++ "/download"

/-- The document profile fields read out of the metadata response
(`response.json().get("data", {})`, src/document_service.py lines 27-31 and
95-110).  `none` models an absent key; `size` keeps the numeric Python value
(`0`/absent are both falsy for the metadata narrative). -/
structure DocMeta where
  name : Option String
  author : Option String
  docType : Option String
  size : Option Nat
  comments : Option String
  edit_date : Option String
  create_date : Option String
  document_number : Option String
  version : Option String
deriving Repr

/-- A successful `/download` response: headers and body
(src/document_service.py lines 43-57).  `decoded` is the `response.text`
rendering used by the no-libraries fallback. -/
structure DlResp where
  contentType : String
  contentDisposition : String
  body : List Nat
  decoded : String
deriving Repr

/-- The DocumentBundle dict returned by `fetch_document_content`
(src/document_service.py lines 137-143 and 148-154). -/
structure DocumentBundle where
  id : String
  title : String
  text : String
  url : String
  metadata : List (String × String)
deriving DecidableEq, Repr

/-- Helper for the optional metadata narrative lines of
src/document_service.py lines 95-110: emit the line only when the value is
present and truthy. -/
def optLine (label : String) (v : Option String) : List String :=
  match v with
  | some s => if s ≠ "" then [label ++ s] else []
  | none => []

/-- Python `str(True)` / `str(False)`. -/
def pyBool (b : Bool) : String := if b then "True" else "False"

/-- `document_service.fetch_document_content` (src/document_service.py
lines 11-154).  `tok` is the outcome of the `await get_token()` call at
line 15 — note that this call sits before the `try` block, so its failure
(an `HTTPException` from auth.get_token) propagates to the caller, modelled
by `.error`.  `meta` is the metadata GET (its `raise_for_status`/JSON
parse), `dl` the download GET, both oracles.  The download `try/except`
(lines 41-80) converts a download failure into explanatory text; the outer
`except` (lines 145-154) converts a metadata failure into an error bundle
whose text starts with `"Failed"`. -/
def fetch_document_content (doc_id : String)
    (tok : Except String String)
    (meta : Except String DocMeta)
    (dl : Except String DlResp)
    (libs : DocLibs) (procAvailable : Bool) : Except String DocumentBundle :=
  match tok with
  | .error e => .error e
  | .ok _ =>
    match meta with
    | .error e =>
      .ok { id := doc_id
          , title := "Error accessing document " ++ doc_id
          , text := "Failed to fetch document " ++ doc_id ++ ": " ++ e
          , url := docUrl doc_id
          , metadata := [("error", e)] }
    | .ok m =>
      let title := m.name.getD "Untitled Document"
      let dlOutcome :=
        match dl with
        | .error de =>
          ("Document download failed: " ++ de
            ++ ". Document metadata available below.", false)
        | .ok d =>
          let filename :=
            if strContains d.contentDisposition "filename=" then
              match splitSecond "filename=".data d.contentDisposition.data with
              | some l => stripQuotes ⟨l⟩
              | none => title
            else title
          let ct := lowerStr d.contentType
          if procAvailable then
            (process_document_content libs d.body d.decoded ct filename, true)
          else if strContains ct "text" || strContains ct "json"
              || strContains ct "xml" then
            (d.decoded, true)
          else
            ("Binary document (" ++ ct ++ "). Size: " ++ toString d.body.length
              ++ " bytes. Document processing libraries not available for text extraction.",
              false)
      let document_text := dlOutcome.1
      let download_success := dlOutcome.2
      let contentParts :=
        if pyStrip document_text ≠ "" then
          ["=== DOCUMENT CONTENT ===", document_text]
        else
          ["=== DOCUMENT CONTENT UNAVAILABLE ===",
           "Document content could not be extracted or is empty."]
      let metaParts :=
        ["\n=== DOCUMENT METADATA ==="]
          ++ optLine "Comments: " m.comments
          ++ optLine "Author: " m.author
          ++ optLine "Document Type: " m.docType
          ++ (match m.size with
              | some n => if n ≠ 0 then ["Size: " ++ toString n ++ " bytes"] else []
              | none => [])
          ++ optLine "Last Modified: " m.edit_date
          ++ optLine "Created: " m.create_date
          ++ optLine "Document Number: " m.document_number
          ++ optLine "Version: " m.version
      let statusParts :=
        ["\n=== PROCESSING STATUS ===",
         "Download Successful: " ++ pyBool download_success,
         "Text Extraction: "
           ++ (if 100 < document_text.length then "Successful"
               else "Limited or Failed"),
         "Document Processing Libraries: "
           ++ (if procAvailable then "Available" else "Not Available")]
      let full_text := joinSep "\n" (contentParts ++ metaParts ++ statusParts)
      .ok { id := doc_id
          , title := title
          , text := full_text
          , url := docUrl doc_id
          , metadata :=
              [("document_number", m.document_number.getD "")
              , ("version", m.version.getD "")
              , ("author", m.author.getD "")
              , ("type", m.docType.getD "")
              , ("size", match m.size with | some n => toString n | none => "")
              , ("download_url", downloadUrl doc_id)
              , ("download_success", pyBool download_success)
              , ("text_extracted", pyBool (decide (100 < document_text.length)))
              , ("processing_available", pyBool procAvailable)] }

/-- C4 is false as stated: the `await get_token()` call at
src/document_service.py line 15 sits before the `try` block, so when
service-account authentication fails its `HTTPException` propagates out of
`fetch_document_content` instead of being turned into a DocumentBundle. -/
theorem C4_counterexample :
    fetch_document_content "doc1" (.error "Authentication failed: 401")
      (.error "meta") (.error "dl") garbageLibs true =
      .error "Authentication failed: 401" := rfl

/-- C4 (amended): once the service token has been obtained, every failure —
including a 404 at the metadata step — is captured: the call returns a
DocumentBundle (never an exception) whose id equals the requested id, and
when the metadata step failed its text begins with `"Failed"`. -/
theorem C4_amended_fetch_returns_bundle (doc_id tokv : String)
    (meta : Except String DocMeta) (dl : Except String DlResp)
    (libs : DocLibs) (procAvailable : Bool) :
    ∃ b : DocumentBundle,
      fetch_document_content doc_id (.ok tokv) meta dl libs procAvailable = .ok b ∧
        b.id = doc_id ∧
        (∀ e, meta = .error e → ∃ post, b.text = "Failed" ++ post) := by
  cases meta with
  | error e =>
    refine ⟨_, rfl, rfl, ?_⟩
    intro e2 he
    injection he with h
    subst h
    exact ⟨" to fetch document " ++ doc_id ++ ": " ++ e, rfl⟩
  | ok m =>
    refine ⟨_, rfl, rfl, ?_⟩
    intro e2 he
    exact Except.noConfusion he

/-- C4 witness: the amended theorem at a concrete 404-at-metadata input. -/
theorem C4_witness :
    ∃ b : DocumentBundle,
      fetch_document_content "doc-404" (.ok "tok")
        (.error "404: Not Found") (.error "dl") garbageLibs true = .ok b ∧
        b.id = "doc-404" ∧
        (∀ e, (.error "404: Not Found" : Except String DocMeta) = .error e →
          ∃ post, b.text = "Failed" ++ post) :=
  C4_amended_fetch_returns_bundle "doc-404" "tok" (.error "404: Not Found")
    (.error "dl") garbageLibs true

/-! ## config.py and auth.py (service-account token cache) -/

/-- config.py `token_cache` (line 71): `{"token": None, "expires": 0}`.
`token` is `None` or a string; `expires` an epoch timestamp. -/
structure TokenCache where
  token : Option String
  expires : Int
deriving DecidableEq, Repr

/-- `config.update_token_cache` (src/config.py lines 77-81):
`expires = now + expires_in - 60` (one-minute safety buffer). -/
def update_token_cache (tok : String) (expires_in now : Int) : TokenCache :=
  { token := some tok, expires := now + expires_in - 60 }

/-- `auth.get_token` (src/auth.py lines 20-50).  `net` is the outcome of
the password-grant POST (`access_token`, `expires_in`); the third component
of the result counts the network requests issued by the call (0 on a cache
hit, 1 otherwise).  The cache-hit test is Python
`cache["token"] and cache["expires"] > time.time()`: `None` and the empty
string are both falsy. -/
def get_token (cache : TokenCache) (now : Int)
    (net : Except String (String × Int)) :
    Except (Nat × String) String × TokenCache × Nat :=
  if cache.token.getD "" ≠ "" ∧ now < cache.expires then
    (.ok (cache.token.getD ""), cache, 0)
  else
    match net with
    | .ok r => (.ok r.1, update_token_cache r.1 r.2 now, 1)
    | .error e => (.error (401, "Authentication failed: " ++ e), cache, 1)

/-- C5 is false as stated: a cached token that is non-null but empty
(`token_cache["token"] == ""`) is falsy in Python, so `get_token` issues a
network request even though the cached token is non-null and unexpired. -/
theorem C5_counterexample :
    ((some "" : Option String) ≠ none) ∧ ((0 : Int) < 100) ∧
      (get_token { token := some "", expires := 100 } 0
        (.ok ("fresh", 1800))).2.2 = 1 := by
  refine ⟨by simp, by norm_num, ?_⟩
  rfl

/-- C5 (amended): if the cached token is non-null **and non-empty** and
`now` is strictly before the cached expiry, the cached token is returned
and no network request is issued; otherwise exactly one password-grant POST
is issued and, on success, its `access_token` is stored (with the 60-second
buffer) and returned. -/
theorem C5_amended_token_cache (cache : TokenCache) (now : Int)
    (net : Except String (String × Int)) :
    (∀ t, cache.token = some t → t ≠ "" → now < cache.expires →
        get_token cache now net = (.ok t, cache, 0)) ∧
      ((cache.token.getD "" = "" ∨ cache.expires ≤ now) →
        (get_token cache now net).2.2 = 1 ∧
          ∀ tok ein, net = .ok (tok, ein) →
            get_token cache now net =
              (.ok tok, { token := some tok, expires := now + ein - 60 }, 1)) := by
  constructor
  · intro t ht hne hlt
    unfold get_token
    rw [if_pos ⟨by rw [ht]; exact hne, hlt⟩]
    rw [ht]
    rfl
  · intro hmiss
    have hcond : ¬ (cache.token.getD "" ≠ "" ∧ now < cache.expires) := by
      rcases hmiss with h | h
      · intro hc; exact hc.1 h
      · intro hc; omega
    unfold get_token
    rw [if_neg hcond]
    constructor
    · cases net with
      | ok r => rfl
      | error e => rfl
    · intro tok ein hnet
      subst hnet
      rfl

/-- C5 witness: the amended theorem at concrete inputs — a hit on a
non-empty cached token, and a miss on the empty initial cache. -/
theorem C5_witness :
    (get_token { token := some "cached-tok", expires := 100 } 50
        (.ok ("fresh", 1800)) = (.ok "cached-tok",
          { token := some "cached-tok", expires := 100 }, 0)) ∧
      (get_token { token := none, expires := 0 } 50 (.ok ("fresh", 1800)) =
        (.ok "fresh", { token := some "fresh", expires := 50 + 1800 - 60 }, 1)) :=
  ⟨(C5_amended_token_cache { token := some "cached-tok", expires := 100 } 50
      (.ok ("fresh", 1800))).1 "cached-tok" rfl (by simp) (by norm_num),
   ((C5_amended_token_cache { token := none, expires := 0 } 50
      (.ok ("fresh", 1800))).2 (Or.inl rfl)).2 "fresh" 1800 rfl⟩

/-! ## auth.py (UserAuthManager) -/

/-- Lookup in an insertion-ordered Python dict modelled as an association
list (unique keys by construction). -/
def alistLookup {β : Type} (m : List (String × β)) (k : String) : Option β :=
  match m.find? (fun p => decide (p.1 = k)) with
  | some p => some p.2
  | none => none

/-- Python dict assignment `m[k] = v`: replace in place or append. -/
def alistInsert {β : Type} (m : List (String × β)) (k : String) (v : β) :
    List (String × β) :=
  if (m.find? (fun p => decide (p.1 = k))).isSome then
    m.map (fun p => if p.1 = k then (k, v) else p)
  else m ++ [(k, v)]

/-- Python `del m[k]`. -/
def alistErase {β : Type} (m : List (String × β)) (k : String) :
    List (String × β) :=
  m.filter (fun p => decide (p.1 ≠ k))

lemma alistLookup_erase {β : Type} (m : List (String × β)) (k : String) :
    alistLookup (alistErase m k) k = none := by
  induction m with
  | nil => rfl
  | cons p rest ih =>
    unfold alistLookup alistErase at ih ⊢
    rw [List.filter_cons]
    by_cases h : p.1 = k
    · have hd : decide (p.1 ≠ k) = false := by simp [h]
      rw [hd]
      simpa using ih
    · have hd : decide (p.1 ≠ k) = true := by simp [h]
      rw [hd]
      simp only [if_true]
      rw [List.find?_cons]
      have h2 : decide (p.1 = k) = false := by simp [h]
      rw [h2]
      exact ih

/-- The per-state record stored in `UserAuthManager.oauth_states`
(src/auth.py lines 74-78). -/
structure OAuthStateData where
  session_id : String
  created_at : Int
  expires_at : Int
deriving DecidableEq, Repr

/-- The `oauth_states` dict. -/
abbrev OAuthStates := List (String × OAuthStateData)

/-- `UserAuthManager.generate_oauth_state` (src/auth.py lines 71-79): the
random `secrets.token_urlsafe(32)` value is passed in as `state`; the entry
expires 600 seconds after `now`. -/
def generate_oauth_state (states : OAuthStates) (session_id state : String)
    (now : Int) : OAuthStates :=
  alistInsert states state
    { session_id := session_id, created_at := now, expires_at := now + 600 }

/-- `UserAuthManager.validate_oauth_state` (src/auth.py lines 81-93):
unknown state → `None` (no mutation); expired state → deleted, `None`;
valid state → deleted (single use), session id returned. -/
def validate_oauth_state (states : OAuthStates) (state : String) (now : Int) :
    Option String × OAuthStates :=
  match alistLookup states state with
  | none => (none, states)
  | some d =>
    if d.expires_at < now then (none, alistErase states state)
    else (some d.session_id, alistErase states state)

/-- `auth.UserSession` (src/auth.py lines 53-61). -/
structure UserSession where
  user_id : String
  access_token : String
  refresh_token : Option String
  expires_at : Int
  user_info : List (String × String)
  created_at : Int
deriving DecidableEq, Repr

/-- The `user_sessions` dict. -/
abbrev Sessions := List (String × UserSession)

/-- `UserAuthManager.authenticate_with_oauth_code` (src/auth.py lines
139-186).  `net` is the authorization-code token exchange
(`access_token`, optional `refresh_token`, `expires_in`); `uname`/`uinfo`
the best-effort user-info lookup.  State validation happens first and its
deletion persists even when the flow then fails.  The result carries the
mutated `oauth_states`, the mutated `user_sessions`, and the outcome
(`.error` models the raised `HTTPException`: status code and detail). -/
def authenticate_with_oauth_code (states : OAuthStates) (sessions : Sessions)
    (code state : String) (now : Int)
    (net : Except String (String × Option String × Int))
    (uname : String) (uinfo : List (String × String)) :
    OAuthStates × Sessions × Except (Nat × String) UserSession :=
  match validate_oauth_state states state now with
  | (none, states2) =>
    (states2, sessions, .error (400, "Invalid or expired OAuth state"))
  | (some session_id, states2) =>
    match net with
    | .error e =>
      (states2, sessions, .error (401, "OAuth authentication failed: " ++ e))
    | .ok r =>
      let us : UserSession :=
        { user_id := uname
        , access_token := r.1
        , refresh_token := r.2.1
        , expires_at := now + r.2.2 - 60
        , user_info := uinfo
        , created_at := now }
      (states2, alistInsert sessions session_id us, .ok us)

/-- `UserAuthManager.get_user_token` (src/auth.py lines 188-212).  `net` is
the refresh-token grant oracle (`access_token`, optional new
`refresh_token`, `expires_in`).  Returns the mutated `user_sessions`
together with the outcome; `.error` models the raised `HTTPException`.
Note Python truthiness on `if session.refresh_token:`: an empty-string
refresh token counts as absent. -/
def get_user_token (sessions : Sessions) (session_id : String) (now : Int)
    (net : Except String (String × Option String × Int)) :
    Sessions × Except (Nat × String) String :=
  match alistLookup sessions session_id with
  | none => (sessions, .error (401, "User not authenticated"))
  | some s =>
    if now < s.expires_at then (sessions, .ok s.access_token)
    else
      let refreshed :=
        if s.refresh_token.getD "" ≠ "" then
          match net with
          | .ok r => some r
          | .error _ => none
        else none
      match refreshed with
      | some r =>
        let s2 : UserSession :=
          { s with
            access_token := r.1
          , refresh_token := match r.2.1 with
              | some rt => some rt
              | none => s.refresh_token
          , expires_at := now + r.2.2 - 60 }
        (alistInsert sessions session_id s2, .ok r.1)
      | none =>
        (alistErase sessions session_id,
          .error (401, "User session expired, please re-authenticate"))

/-- C6: OAuth states are single-use.  For every state recorded by
`generate_oauth_state`, after a first successful validation the state is
gone from the store, a second validation of the same state returns `None`,
and `authenticate_with_oauth_code` with that state then rejects with the
invalid/expired-state error (HTTP 400). -/
theorem C6_oauth_state_single_use (states0 : OAuthStates) (sessions : Sessions)
    (session_id state code uname : String) (uinfo : List (String × String))
    (now0 now1 now2 : Int)
    (net : Except String (String × Option String × Int))
    (h : ((validate_oauth_state
        (generate_oauth_state states0 session_id state now0) state now1).1).isSome
        = true) :
    alistLookup ((validate_oauth_state
        (generate_oauth_state states0 session_id state now0) state now1).2)
        state = none ∧
      (validate_oauth_state ((validate_oauth_state
          (generate_oauth_state states0 session_id state now0) state now1).2)
          state now2).1 = none ∧
      (authenticate_with_oauth_code ((validate_oauth_state
          (generate_oauth_state states0 session_id state now0) state now1).2)
          sessions code state now2 net uname uinfo).2.2 =
        .error (400, "Invalid or expired OAuth state") := by
  set states1 := generate_oauth_state states0 session_id state now0 with hs1
  have hval : (validate_oauth_state states1 state now1).2 =
      alistErase states1 state := by
    unfold validate_oauth_state at h ⊢
    cases hl : alistLookup states1 state with
    | none => simp [hl] at h
    | some d =>
      simp only [hl] at h ⊢
      by_cases hx : d.expires_at < now1
      · simp [hx] at h
      · simp [hx]
  rw [hval]
  have hv2 : ∀ n : Int, validate_oauth_state (alistErase states1 state) state n =
      (none, alistErase states1 state) := by
    intro n
    unfold validate_oauth_state
    rw [alistLookup_erase]
  refine ⟨alistLookup_erase _ _, by rw [hv2], ?_⟩
  unfold authenticate_with_oauth_code
  rw [hv2]

/-- C6 witness: the theorem at a concrete fresh state validated at time 10
(within its 600-second TTL). -/
theorem C6_witness :
    alistLookup ((validate_oauth_state
        (generate_oauth_state [] "sess1" "st1" 0) "st1" 10).2) "st1" = none ∧
      (validate_oauth_state ((validate_oauth_state
          (generate_oauth_state [] "sess1" "st1" 0) "st1" 10).2) "st1" 20).1
        = none ∧
      (authenticate_with_oauth_code ((validate_oauth_state
          (generate_oauth_state [] "sess1" "st1" 0) "st1" 10).2)
          [] "code1" "st1" 20 (.ok ("at", none, 1800)) "u" []).2.2 =
        .error (400, "Invalid or expired OAuth state") :=
  C6_oauth_state_single_use [] [] "sess1" "st1" "code1" "u" [] 0 10 20
    (.ok ("at", none, 1800)) (by decide)

/-- C7: `get_user_token` on an absent session fails with the
not-authenticated 401; on a session whose expiry has passed, when the
refresh grant fails or no (truthy) refresh token exists, the session is
deleted and the call fails with the session-expired 401; a subsequent call
with the same session id then fails with the not-authenticated 401. -/
theorem C7_session_expiry_reauth (sessions : Sessions) (session_id : String)
    (now now2 : Int) (net net2 : Except String (String × Option String × Int)) :
    (alistLookup sessions session_id = none →
      get_user_token sessions session_id now net =
        (sessions, .error (401, "User not authenticated"))) ∧
      (∀ s : UserSession, alistLookup sessions session_id = some s →
        s.expires_at ≤ now →
        (s.refresh_token.getD "" = "" ∨ ∃ e, net = .error e) →
        get_user_token sessions session_id now net =
          (alistErase sessions session_id,
            .error (401, "User session expired, please re-authenticate")) ∧
          get_user_token (alistErase sessions session_id) session_id now2 net2 =
            (alistErase sessions session_id,
              .error (401, "User not authenticated"))) := by
  constructor
  · intro h
    unfold get_user_token
    rw [h]
  · intro s hs hexp hfail
    have hlt : ¬ (now < s.expires_at) := by omega
    have hrefreshed : (if s.refresh_token.getD "" ≠ "" then
        match net with
        | .ok r => some r
        | .error _ => none
      else none) = none := by
      rcases hfail with hrt | ⟨e, he⟩
      · rw [if_neg (by simpa using hrt)]
      · by_cases hb : s.refresh_token.getD "" ≠ ""
        · rw [if_pos hb, he]
        · rw [if_neg hb]
    have hmain : get_user_token sessions session_id now net =
        (alistErase sessions session_id,
          .error (401, "User session expired, please re-authenticate")) := by
      unfold get_user_token
      rw [hs]
      dsimp only
      rw [if_neg hlt, hrefreshed]
    have hsecond : get_user_token (alistErase sessions session_id)
        session_id now2 net2 =
        (alistErase sessions session_id,
          .error (401, "User not authenticated")) := by
      unfold get_user_token
      rw [alistLookup_erase]
    exact ⟨hmain, hsecond⟩

/-- A concrete expired session used by the C7 witness. -/
def c7Session : UserSession :=
  { user_id := "u", access_token := "a", refresh_token := some "rt"
  , expires_at := 5, user_info := [], created_at := 0 }

/-- C7 witness: the theorem applied to the empty store (absent session) and
to a store holding one expired session whose refresh grant fails. -/
theorem C7_witness :
    (get_user_token [] "sid1" 0 (.ok ("x", none, 100)) =
      ([], .error (401, "User not authenticated"))) ∧
      (get_user_token [("sid1", c7Session)] "sid1" 10 (.error "boom") =
        (alistErase [("sid1", c7Session)] "sid1",
          .error (401, "User session expired, please re-authenticate")) ∧
        get_user_token (alistErase [("sid1", c7Session)] "sid1") "sid1" 11
          (.ok ("x", none, 100)) =
          (alistErase [("sid1", c7Session)] "sid1",
            .error (401, "User not authenticated"))) :=
  ⟨(C7_session_expiry_reauth [] "sid1" 0 0 (.ok ("x", none, 100))
      (.ok ("x", none, 100))).1 rfl,
   (C7_session_expiry_reauth [("sid1", c7Session)] "sid1" 10 11 (.error "boom")
      (.ok ("x", none, 100))).2 c7Session rfl (by decide)
      (Or.inr ⟨"boom", rfl⟩)⟩

/-! ## oauth_endpoints.py -/

/-- The JSON body returned by the `/oauth/token` endpoint
(src/oauth_endpoints.py lines 154-159 and 165-170). -/
structure TokenResponse where
  access_token : String
  token_type : String
  expires_in : Int
  scope : String
deriving DecidableEq, Repr

/-- `oauth_endpoints.oauth_token` (src/oauth_endpoints.py lines 135-173).
`cfgId`/`cfgSecret` are the configured `CLIENT_ID`/`CLIENT_SECRET`;
`code` and `refreshTok` are the optional form fields (`Form(None)`, with
Python falsiness for `None` and the empty string).  `.error` models the
raised `HTTPException`.  Note: for the authorization_code grant the
endpoint checks only the client credentials and the presence of a code —
it consults no exchange state at all before minting the fixed dummy
token. -/
def oauth_token (cfgId cfgSecret grant_type : String)
    (code refreshTok : Option String) (client_id client_secret : String) :
    Except (Nat × String) TokenResponse :=
  if client_id ≠ cfgId ∨ client_secret ≠ cfgSecret then
    .error (401, "Invalid client credentials")
  else if grant_type = "authorization_code" then
    if code.getD "" = "" then .error (400, "Missing authorization code")
    else .ok { access_token := "mcp_authenticated", token_type := "bearer"
             , expires_in := 3600, scope := "read" }
  else if grant_type = "refresh_token" then
    if refreshTok.getD "" = "" then .error (400, "Missing refresh token")
    else .ok { access_token := "mcp_refreshed", token_type := "bearer"
             , expires_in := 3600, scope := "read" }
  else .error (400, "Unsupported grant type")

/-- C8 is false as stated: with valid client credentials, the token
endpoint issues a bearer token for a code that was never minted by any
exchange — `oauth_token` takes no exchange store whatsoever and cannot
validate the code beyond non-emptiness. -/
theorem C8_counterexample :
    oauth_token "cid" "secret" "authorization_code" (some "code-never-issued")
      none "cid" "secret" =
      .ok { access_token := "mcp_authenticated", token_type := "bearer"
          , expires_in := 3600, scope := "read" } := rfl

/-- C8 (amended): `oauth_token` validates only the client credentials and
the presence of a non-empty code; with matching credentials and the
authorization_code grant it issues the fixed token `"mcp_authenticated"`
for **every** non-empty code (checking no exchange state), while
mismatched credentials yield 401 and a missing code yields 400. -/
theorem C8_amended_token_endpoint (cfgId cfgSecret grant_type : String)
    (code refreshTok : Option String) (client_id client_secret : String) :
    (client_id = cfgId → client_secret = cfgSecret →
      grant_type = "authorization_code" → ∀ c, code = some c → c ≠ "" →
      oauth_token cfgId cfgSecret grant_type code refreshTok
          client_id client_secret =
        .ok { access_token := "mcp_authenticated", token_type := "bearer"
            , expires_in := 3600, scope := "read" }) ∧
      ((client_id ≠ cfgId ∨ client_secret ≠ cfgSecret) →
        oauth_token cfgId cfgSecret grant_type code refreshTok
            client_id client_secret = .error (401, "Invalid client credentials")) ∧
      (client_id = cfgId → client_secret = cfgSecret →
        grant_type = "authorization_code" → code.getD "" = "" →
        oauth_token cfgId cfgSecret grant_type code refreshTok
            client_id client_secret = .error (400, "Missing authorization code")) := by
  refine ⟨?_, ?_, ?_⟩
  · intro h1 h2 h3 c hc hne
    unfold oauth_token
    rw [if_neg (by push_neg; exact ⟨h1, h2⟩), if_pos h3, if_neg (by rw [hc]; simpa using hne)]
  · intro h
    unfold oauth_token
    rw [if_pos h]
  · intro h1 h2 h3 hc
    unfold oauth_token
    rw [if_neg (by push_neg; exact ⟨h1, h2⟩), if_pos h3, if_pos hc]

/-- C8 witness: the amended theorem at concrete inputs (valid credentials
with an arbitrary code; wrong secret; missing code). -/
theorem C8_witness :
    (oauth_token "cid" "secret" "authorization_code" (some "any-code") none
        "cid" "secret" =
      .ok { access_token := "mcp_authenticated", token_type := "bearer"
          , expires_in := 3600, scope := "read" }) ∧
      (oauth_token "cid" "secret" "authorization_code" (some "any-code") none
          "cid" "wrong" = .error (401, "Invalid client credentials")) ∧
      (oauth_token "cid" "secret" "authorization_code" none none
          "cid" "secret" = .error (400, "Missing authorization code")) :=
  ⟨(C8_amended_token_endpoint "cid" "secret" "authorization_code"
      (some "any-code") none "cid" "secret").1 rfl rfl rfl "any-code" rfl
      (by simp),
   (C8_amended_token_endpoint "cid" "secret" "authorization_code"
      (some "any-code") none "cid" "wrong").2.1 (Or.inr (by simp)),
   (C8_amended_token_endpoint "cid" "secret" "authorization_code"
      none none "cid" "secret").2.2 rfl rfl rfl rfl⟩

/-! ## mcp_handlers.py -/

/-- The MCP tool-call response envelope built by `handle_search_tool`
(src/mcp_handlers.py lines 195-259): a success carries the result list
(and, when empty, the no-results message) that `json.dumps` would
serialize into the `content` text block; an error carries the JSON-RPC
error code and message. -/
inductive McpToolResponse where
  | result (id : Option Int) (results : List SearchResult)
      (message : Option String)
  | err (id : Option Int) (code : Int) (message : String)
deriving DecidableEq, Repr

/-- The parameters of `search_service.perform_combined_search`
(src/search_service.py line 315): `query` and `limit_per_type` only. -/
def perform_combined_search_params : List String := ["query", "limit_per_type"]

/-- The keyword arguments used at the call site
`perform_combined_search(query, limit_per_type=10, request=request)`
(src/mcp_handlers.py line 205). -/
def handle_search_tool_kwargs : List String := ["limit_per_type", "request"]

/-- Python call binding for that call site: a keyword argument that is not
among the parameters of the callee raises `TypeError` before its body
runs; otherwise the call proceeds as `perform_combined_search`. -/
def callSearchFromHandler
    (titleRes keywordRes fallbackRes : Except String (List SearchResult)) :
    Except String (List SearchResult) :=
  if handle_search_tool_kwargs.all
      (fun kw => perform_combined_search_params.contains kw) then
    .ok (perform_combined_search titleRes keywordRes fallbackRes)
  else
    .error "perform_combined_search() got an unexpected keyword argument: request"

/-- `mcp_handlers.handle_search_tool` (src/mcp_handlers.py lines 195-259).
The `try/except` turns any raised exception — the `ValueError` for a
missing query, or the `TypeError` from the call binding — into the
JSON-RPC -32603 envelope.  (The Python no-results message quotes the query
and uses contractions; the quote characters are elided here.) -/
def handle_search_tool (request_id : Option Int)
    (arguments : List (String × String))
    (titleRes keywordRes fallbackRes : Except String (List SearchResult)) :
    McpToolResponse :=
  let query := (alistLookup arguments "query").getD ""
  if query = "" then
    .err request_id (-32603) "Search failed: Query parameter is required"
  else
    match callSearchFromHandler titleRes keywordRes fallbackRes with
    | .error e => .err request_id (-32603) ("Search failed: " ++ e)
    | .ok final_results =>
      if final_results.isEmpty then
        .result request_id []
          (some ("No documents found for query: " ++ query
            ++ ". This could be because no documents match your search terms, or you do not have permission to access documents containing these terms."))
      else .result request_id final_results none

/-- C10: in the modular handler, every search tool call with a non-empty
query produces the JSON-RPC -32603 error envelope (never a result): the
call site passes a `request` keyword argument that
`perform_combined_search` does not accept, so the call raises `TypeError`,
which the handler converts into the -32603 response. -/
theorem C10_search_tool_always_internal_error (request_id : Option Int)
    (arguments : List (String × String))
    (titleRes keywordRes fallbackRes : Except String (List SearchResult))
    (h : (alistLookup arguments "query").getD "" ≠ "") :
    handle_search_tool request_id arguments titleRes keywordRes fallbackRes =
      .err request_id (-32603)
        "Search failed: perform_combined_search() got an unexpected keyword argument: request" := by
  unfold handle_search_tool
  dsimp only
  rw [if_neg h]
  have hcall : callSearchFromHandler titleRes keywordRes fallbackRes =
      .error "perform_combined_search() got an unexpected keyword argument: request" := rfl
  rw [hcall]
  rfl

/-- C10 witness: a concrete search call with query `"contract"`. -/
theorem C10_witness :
    handle_search_tool (some 7) [("query", "contract")]
      (.ok []) (.ok []) (.ok []) =
      .err (some 7) (-32603)
        "Search failed: perform_combined_search() got an unexpected keyword argument: request" :=
  C10_search_tool_always_internal_error (some 7) [("query", "contract")]
    (.ok []) (.ok []) (.ok []) (by decide)
